import Mathlib

/-!
Verification of the progression state engine of the `ct` tracker.
The definitions below are a shallow embedding of `app/models.py`,
`app/screens.py`, `app/data_manager.py` and `app/settings_manager.py`:
entity records, the index-addressed mutation actions, the streak
updates, the oracle/lore selection, the load/save layer and the
export/import consolidator.  Calendar dates are embedded as integers
(the ISO string of a date is an injective encoding of it, and the code
only ever compares such strings for equality); Python ints are `Int`.
-/

namespace Ct

/-- Mission record, from `models.Mission`. -/
structure Mission where
  title : String
  description : String
  completed : Bool
deriving DecidableEq

/-- Skill record, from `models.Skill`. -/
structure Skill where
  name : String
  level : Int
  progress : Int
deriving DecidableEq

/-- Artifact record, from `models.Artifact`. -/
structure Artifact where
  name : String
  collected : Bool
deriving DecidableEq

/-- Challenge record, from `models.Challenge`. -/
structure Challenge where
  title : String
  deadline : String
  progress : Int
  goal : Int
deriving DecidableEq

/-- Profile record, from `models.Profile`. -/
structure Profile where
  name : String
  title : String
  avatar_color : String
deriving DecidableEq

/-- Badge record, from `models.Badge`. -/
structure Badge where
  title : String
  description : String
deriving DecidableEq

/-- Quest record, from `models.Quest`. -/
structure Quest where
  name : String
  tasks : List String
  completed : Bool
deriving DecidableEq

/-- The settings document (`settings.json`), a flat dict whose keys are
each independently optional; dates embedded as `Int`. -/
structure Settings where
  last_mission_day : Option Int := none
  mission_streak : Option Int := none
  last_reflect_day : Option Int := none
  reflect_streak : Option Int := none
  last_cosmic_event_date : Option Int := none
deriving DecidableEq

/-- Python `str.strip()`: remove leading and trailing whitespace. -/
def strip (s : String) : String :=
  ⟨((s.data.dropWhile Char.isWhitespace).reverse.dropWhile Char.isWhitespace).reverse⟩

/-- Python dict read `m.get(k)`: first (= only, for a dict) binding. -/
def dict_get {β : Type} : List (String × β) → String → Option β
  | [], _ => none
  | p :: rest, k => if p.1 = k then some p.2 else dict_get rest k

/-- Python dict write `m[k] = v`: overwrite the binding in place if the
key is present, else append it. -/
def dict_set {β : Type} : List (String × β) → String → β → List (String × β)
  | [], k, v => [(k, v)]
  | p :: rest, k, v => if p.1 = k then (k, v) :: rest else p :: dict_set rest k v

/-- `MissionsScreen.update_mission_streak` (screens.py 281-304):
same-day calls are no-ops on the counter, a call one day after the last
activity increments it, anything else resets it to 1; the last-activity
day is then set to today and the settings persisted. -/
def update_mission_streak (settings : Settings) (today : Int) : Settings :=
  let last := settings.last_mission_day
  let streak := settings.mission_streak.getD 0
  let streak :=
    if last = some today then streak
    else
      match last with
      | some d => if today - 1 = d then streak + 1 else 1
      | none => 1
  { settings with mission_streak := some streak, last_mission_day := some today }

/-- `ReflectionScreen.update_reflection_streak` (screens.py 566-587):
identical algorithm on the reflection fields. -/
def update_reflection_streak (settings : Settings) (today : Int) : Settings :=
  let last := settings.last_reflect_day
  let streak := settings.reflect_streak.getD 0
  let streak :=
    if last = some today then streak
    else
      match last with
      | some d => if today - 1 = d then streak + 1 else 1
      | none => 1
  { settings with reflect_streak := some streak, last_reflect_day := some today }

/-- `SkillTreesScreen.action_level_up_skill` (screens.py 355-367):
in bounds, add the fixed increment 25 to `progress`; on reaching 100,
bump `level` and reset `progress` to exactly 0; then save (flag `true`).
Out of bounds nothing happens and nothing is saved. -/
def action_level_up_skill (skills : List Skill) (idx : Int) : List Skill × Bool :=
  if 0 ≤ idx ∧ idx < (skills.length : Int) then
    let i := idx.toNat
    let s := skills.getD i ⟨"", 0, 0⟩
    let s := { s with progress := s.progress + 25 }
    let s := if s.progress ≥ 100 then { s with level := s.level + 1, progress := 0 } else s
    (skills.set i s, true)
  else (skills, false)

/-- `MissionsScreen.action_toggle_mission` (screens.py 267-279): in
bounds, flip `completed` and save the missions; when the mission just
became completed also run the mission-streak update (which saves the
settings).  The two booleans record whether the missions document and
the settings document were persisted. -/
def action_toggle_mission (missions : List Mission) (settings : Settings)
    (today : Int) (idx : Int) : List Mission × Settings × Bool × Bool :=
  if 0 ≤ idx ∧ idx < (missions.length : Int) then
    let i := idx.toNat
    let m := missions.getD i ⟨"", "", false⟩
    let m := { m with completed := !m.completed }
    let missions := missions.set i m
    if m.completed then (missions, update_mission_streak settings today, true, true)
    else (missions, settings, true, false)
  else (missions, settings, false, false)

/-- `ArtifactsScreen.action_toggle_artifact` (screens.py 419-429). -/
def action_toggle_artifact (artifacts : List Artifact) (idx : Int) :
    List Artifact × Bool :=
  if 0 ≤ idx ∧ idx < (artifacts.length : Int) then
    let i := idx.toNat
    let a := artifacts.getD i ⟨"", false⟩
    (artifacts.set i { a with collected := !a.collected }, true)
  else (artifacts, false)

/-- `ChallengesScreen.action_toggle_challenge` (screens.py 730-740):
the fixed increment is 1; the list is saved in both branches. -/
def action_toggle_challenge (challenges : List Challenge) (idx : Int) :
    List Challenge × Bool :=
  if 0 ≤ idx ∧ idx < (challenges.length : Int) then
    let i := idx.toNat
    let c := challenges.getD i ⟨"", "", 0, 0⟩
    (challenges.set i { c with progress := c.progress + 1 }, true)
  else (challenges, false)

/-- `CosmicCraftsScreen.action_rename_artifact` (screens.py 1038-1046):
appends "-Enhanced" to the name, leaving `collected` untouched. -/
def action_rename_artifact (artifacts : List Artifact) (idx : Int) :
    List Artifact × Bool :=
  if 0 ≤ idx ∧ idx < (artifacts.length : Int) then
    let i := idx.toNat
    let a := artifacts.getD i ⟨"", false⟩
    (artifacts.set i { a with name := a.name ++ "-Enhanced" }, true)
  else (artifacts, false)

/-- `QuestsScreen.action_start_quest` (screens.py 981-990): marks the
whole quest completed. -/
def action_start_quest (quests : List Quest) (idx : Int) : List Quest × Bool :=
  if 0 ≤ idx ∧ idx < (quests.length : Int) then
    let i := idx.toNat
    let q := quests.getD i ⟨"", [], false⟩
    (quests.set i { q with completed := true }, true)
  else (quests, false)

/-- `ReflectionScreen.action_record_reflection` (screens.py 552-564):
the input is stripped; blank input is rejected with "No content to
save."; otherwise the stripped content is stored under today's key
(overwriting any previous entry for that date), the reflections are
saved and the reflection-streak update runs.  Output: reflections,
settings, notification, whether the reflections document was saved. -/
def action_record_reflection (reflections : List (String × String))
    (settings : Settings) (todayKey : String) (today : Int) (value : String) :
    List (String × String) × Settings × String × Bool :=
  let content := strip value
  if content ≠ "" then
    let reflections := dict_set reflections todayKey content
    let settings := update_reflection_streak settings today
    (reflections, settings,
      "Reflection saved!" ++ " (Reflection Streak: " ++
        toString (settings.reflect_streak.getD 0) ++ " days)", true)
  else (reflections, settings, "No content to save.", false)

/-- Outcome of an oracle-tip request. -/
inductive OracleOutcome where
  | tip (t : String)
  | noTips
  | indexError
deriving DecidableEq

/-- `MissionsScreen.action_oracle_tip` / `ChallengesScreen.action_oracle_tip`
(screens.py 258-265, 742-749): when the oracle map is non-empty and the
category is a key, `random.choice` picks from the registered list —
which raises `IndexError` when that list is empty; otherwise a "no
oracles available" notification results.  `r` embeds the random draw. -/
def action_oracle_tip (oracles : List (String × List String)) (cat : String)
    (r : Nat) : OracleOutcome :=
  match oracles with
  | [] => .noTips
  | _ :: _ =>
    match dict_get oracles cat with
    | none => .noTips
    | some tips =>
      if tips.isEmpty then .indexError
      else .tip (tips.getD (r % tips.length) "")

/-- `TempleGateScreen.on_mount`, daily-lore part (screens.py 107-128):
when the stored `last_cosmic_event_date` is not today, a random snippet
is shown if the pool is non-empty, and the date is stamped and the
settings saved regardless; otherwise nothing happens.  Output: shown
snippet, settings, whether the settings were persisted. -/
def temple_gate_on_mount (settings : Settings) (lore : List String)
    (today : Int) (r : Nat) : Option String × Settings × Bool :=
  if settings.last_cosmic_event_date ≠ some today then
    let snippet := if lore.isEmpty then none else some (lore.getD (r % lore.length) "")
    (snippet, { settings with last_cosmic_event_date := some today }, true)
  else (none, settings, false)

/-- The whole entity store: one collection per entity kind, the profile
a singleton (`none` when `profile.json` is absent). -/
structure Store where
  missions : List Mission
  skills : List Skill
  artifacts : List Artifact
  reflections : List (String × String)
  challenges : List Challenge
  profile : Option Profile
  badges : List Badge
  quests : List Quest
deriving DecidableEq

/-- The consolidated snapshot (`export.json`): one optional section per
entity kind.  The profile section, when present, is either the full
record or the empty object (`profile.__dict__ if profile else` the
empty dict — inner `none`). -/
structure ExportData where
  missions : Option (List Mission) := none
  skills : Option (List Skill) := none
  artifacts : Option (List Artifact) := none
  reflections : Option (List (String × String)) := none
  challenges : Option (List Challenge) := none
  profile : Option (Option Profile) := none
  badges : Option (List Badge) := none
  quests : Option (List Quest) := none

/-- `data_manager.export_all_data` (data_manager.py 150-187): reads
every collection and writes a snapshot with all eight sections present,
the profile section being the empty object when no profile exists. -/
def export_all_data (store : Store) : ExportData :=
  { missions := some store.missions
    skills := some store.skills
    artifacts := some store.artifacts
    reflections := some store.reflections
    challenges := some store.challenges
    profile := some store.profile
    badges := some store.badges
    quests := some store.quests }

/-- `data_manager.import_all_data` (data_manager.py 190-233): each
section present in the snapshot replaces the live collection wholesale,
in the source's order.  Rebuilding a `Profile` from the empty object
raises `TypeError` (`name` has no default), aborting the import after
the sections already saved; the flag records a completed import. -/
def import_all_data (data : ExportData) (store : Store) : Store × Bool :=
  let store := match data.missions with
    | some v => { store with missions := v }
    | none => store
  let store := match data.skills with
    | some v => { store with skills := v }
    | none => store
  let store := match data.artifacts with
    | some v => { store with artifacts := v }
    | none => store
  let store := match data.reflections with
    | some v => { store with reflections := v }
    | none => store
  let store := match data.challenges with
    | some v => { store with challenges := v }
    | none => store
  let tail := fun (store : Store) =>
    let store := match data.badges with
      | some v => { store with badges := v }
      | none => store
    let store := match data.quests with
      | some v => { store with quests := v }
      | none => store
    (store, true)
  match data.profile with
  | some (some p) => tail { store with profile := some p }
  | some none => (store, false)
  | none => tail store

/-- A store with every backing document absent. -/
def empty_store : Store :=
  { missions := [], skills := [], artifacts := [], reflections := [],
    challenges := [], profile := none, badges := [], quests := [] }

/-- JSON values, the wire shape of every backing document. -/
inductive Json where
  | null
  | jbool (b : Bool)
  | jnum (n : Int)
  | jstr (s : String)
  | jarr (xs : List Json)
  | jobj (fields : List (String × Json))

/-- A backing document: absent, present but not valid JSON, or parsed. -/
inductive Doc where
  | absent
  | malformed
  | parsed (j : Json)

/-- Load failures: `json.load` raising on malformed input, or the
parsed value not fitting the expected shape (a `TypeError`). -/
inductive LoadErr where
  | parseFail
  | shapeFail
deriving DecidableEq

/-- `Mission(**m)` applied to a parsed JSON value: succeeds only on a
JSON object whose keys are among title/description/completed with
title and description present (`completed` defaults to false); any
other value raises. -/
def mission_of_json (j : Json) : Except LoadErr (Json × Json × Json) :=
  match j with
  | .jobj fields =>
    if fields.all (fun p =>
        p.1 == "title" || p.1 == "description" || p.1 == "completed") then
      match dict_get fields "title", dict_get fields "description" with
      | some t, some d => .ok (t, d, (dict_get fields "completed").getD (.jbool false))
      | _, _ => .error .shapeFail
    else .error .shapeFail
  | _ => .error .shapeFail

/-- `data_manager.load_missions` (data_manager.py 23-28): an absent
file gives the empty list; malformed JSON raises; a parsed array runs
`Mission(**m)` over its elements.  The comprehension iterates a parsed
dict over its keys and a parsed string over its characters, so the
empty object and the empty string silently give the empty list, while
any element so produced is a string that `Mission(**m)` rejects
(`TypeError`); other parsed values are not iterable and raise. -/
def load_missions (doc : Doc) : Except LoadErr (List (Json × Json × Json)) :=
  match doc with
  | .absent => .ok []
  | .malformed => .error .parseFail
  | .parsed (.jarr ms) => ms.mapM mission_of_json
  | .parsed (.jobj []) => .ok []
  | .parsed (.jobj (_ :: _)) => .error .shapeFail
  | .parsed (.jstr ⟨[]⟩) => .ok []
  | .parsed (.jstr ⟨_ :: _⟩) => .error .shapeFail
  | .parsed _ => .error .shapeFail

/-- `data_manager.load_lore_snippets` (data_manager.py 105-112): an
absent file gives the empty list; malformed JSON raises; a parsed
array is returned as-is; any other parsed value is silently replaced
by the empty list. -/
def load_lore_snippets (doc : Doc) : Except LoadErr (List Json) :=
  match doc with
  | .absent => .ok []
  | .malformed => .error .parseFail
  | .parsed (.jarr xs) => .ok xs
  | .parsed _ => .ok []

/-- Whether a JSON value is an array. -/
def Json.isArr : Json → Bool
  | .jarr _ => true
  | _ => false

/-- Whether a JSON value is an object. -/
def Json.isObj : Json → Bool
  | .jobj _ => true
  | _ => false

/-- Whether a JSON value is a string. -/
def Json.isStr : Json → Bool
  | .jstr _ => true
  | _ => false

/-- File-system effects of one save call. -/
inductive FsOp where
  | openTrunc (path : String)
  | writeDoc (path : String) (data : Json)
  | renameFile (src target : String)

/-- Whether the operation is a rename. -/
def FsOp.isRename : FsOp → Bool
  | .renameFile _ _ => true
  | _ => false

/-- Whether the operation writes (opens for writing, or dumps into)
the given path. -/
def FsOp.writesPath : FsOp → String → Bool
  | .openTrunc q, p => q == p
  | .writeDoc q _, p => q == p
  | .renameFile _ _, _ => false

/-- `m.__dict__` serialized. -/
def mission_to_json (m : Mission) : Json :=
  .jobj [("title", .jstr m.title), ("description", .jstr m.description),
    ("completed", .jbool m.completed)]

/-- `data_manager.save_missions` (data_manager.py 30-33): open the
target `missions.json` for writing (truncating it) and dump the whole
serialized list into it. -/
def save_missions (missions : List Mission) : List FsOp :=
  [.openTrunc "missions.json",
    .writeDoc "missions.json" (.jarr (missions.map mission_to_json))]

/-- The settings dict serialized: only the keys that are set. -/
def settings_to_json (s : Settings) : Json :=
  .jobj (List.filterMap id
    [s.last_mission_day.map (fun d => ("last_mission_day", Json.jnum d)),
      s.mission_streak.map (fun n => ("mission_streak", Json.jnum n)),
      s.last_reflect_day.map (fun d => ("last_reflect_day", Json.jnum d)),
      s.reflect_streak.map (fun n => ("reflect_streak", Json.jnum n)),
      s.last_cosmic_event_date.map (fun d => ("last_cosmic_event_date", Json.jnum d))])

/-- `settings_manager.save_settings` (settings_manager.py 12-14): open
the target `settings.json` for writing and dump the dict. -/
def save_settings (s : Settings) : List FsOp :=
  [.openTrunc "settings.json", .writeDoc "settings.json" (settings_to_json s)]

/-- The §4.1 atomic-write discipline as a predicate on a trace: every
write goes to a path other than the target, and some rename lands on
the target. -/
def atomic_save_pattern (tr : List FsOp) (target : String) : Bool :=
  (tr.all (fun op => !(op.writesPath target))) &&
    (tr.any (fun op => match op with
      | .renameFile _ dst => dst == target
      | _ => false))

/-- Reading a just-written list cell back out. -/
theorem list_getD_set_self {α : Type} (l : List α) (n : Nat) (a d : α)
    (h : n < l.length) : (l.set n a).getD n d = a := by
  induction l generalizing n with
  | nil => simp at h
  | cons x xs ih =>
    cases n with
    | zero => simp [List.set, List.getD]
    | succ m =>
      simp only [List.set, List.length_cons] at h ⊢
      exact ih m (by omega)

/-- C1: after `action_level_up_skill` at an in-bounds index, the touched
skill either keeps `progress < 100` with its level unchanged, or has
`progress = 0` with its level up by exactly 1; progress never exceeds 99
and the excess above 100 is discarded. -/
theorem advance_skill_invariant (skills : List Skill) (idx : Int)
    (h0 : 0 ≤ idx) (h1 : idx < (skills.length : Int)) :
    ((((action_level_up_skill skills idx).1.getD idx.toNat ⟨"", 0, 0⟩).progress < 100 ∧
      ((action_level_up_skill skills idx).1.getD idx.toNat ⟨"", 0, 0⟩).level =
        (skills.getD idx.toNat ⟨"", 0, 0⟩).level) ∨
    (((action_level_up_skill skills idx).1.getD idx.toNat ⟨"", 0, 0⟩).progress = 0 ∧
      ((action_level_up_skill skills idx).1.getD idx.toNat ⟨"", 0, 0⟩).level =
        (skills.getD idx.toNat ⟨"", 0, 0⟩).level + 1)) ∧
    ((action_level_up_skill skills idx).1.getD idx.toNat ⟨"", 0, 0⟩).progress ≤ 99 := by
  have hn : idx.toNat < skills.length := by omega
  simp only [action_level_up_skill, if_pos (And.intro h0 h1)]
  rw [list_getD_set_self _ _ _ _ hn]
  simp only [List.getD_eq_getElem?_getD]
  by_cases hc : 100 ≤ (skills[idx.toNat]?.getD (⟨"", 0, 0⟩ : Skill)).progress + 25
  · rw [if_pos hc]
    refine ⟨Or.inr ⟨rfl, rfl⟩, ?_⟩
    simp only
    omega
  · rw [if_neg hc]
    refine ⟨Or.inl ⟨?_, ?_⟩, ?_⟩
    · simp only
      omega
    · simp only
    · simp only
      omega

/-- Concrete instance of `advance_skill_invariant`: the spec's example
skill at level 2, progress 90 levels up to 3 with progress reset to 0. -/
theorem advance_skill_invariant_witness :
    (((((action_level_up_skill [⟨"Coding", 2, 90⟩] 0).1.getD 0 ⟨"", 0, 0⟩).progress < 100 ∧
      (((action_level_up_skill [⟨"Coding", 2, 90⟩] 0).1.getD 0 ⟨"", 0, 0⟩).level =
        (([⟨"Coding", 2, 90⟩] : List Skill).getD 0 ⟨"", 0, 0⟩).level)) ∨
    ((((action_level_up_skill [⟨"Coding", 2, 90⟩] 0).1.getD 0 ⟨"", 0, 0⟩).progress = 0) ∧
      (((action_level_up_skill [⟨"Coding", 2, 90⟩] 0).1.getD 0 ⟨"", 0, 0⟩).level =
        (([⟨"Coding", 2, 90⟩] : List Skill).getD 0 ⟨"", 0, 0⟩).level + 1))) ∧
    (((action_level_up_skill [⟨"Coding", 2, 90⟩] 0).1.getD 0 ⟨"", 0, 0⟩).progress ≤ 99)) :=
  advance_skill_invariant [⟨"Coding", 2, 90⟩] 0 (by decide) (by decide)

/-- C3: running a streak update a second time on the same calendar day
changes nothing (the whole settings document is reproduced unchanged),
for both the mission and the reflection counter. -/
theorem streak_update_idempotent (s : Settings) (T : Int) :
    update_mission_streak (update_mission_streak s T) T = update_mission_streak s T ∧
    update_reflection_streak (update_reflection_streak s T) T =
      update_reflection_streak s T := by
  constructor
  · simp [update_mission_streak]
  · simp [update_reflection_streak]

/-- C4: a streak update invoked on day `T` increments the counter when
the stored last-activity day is `T - 1`, resets it to 1 when there is no
stored day or it differs from both `T` and `T - 1`, and always stamps
the last-activity day with `T`; consequently events on consecutive days
from a fresh state give streak 2, and a one-day gap gives streak 1. -/
theorem streak_update_continuity (s : Settings) (T : Int) :
    ((s.last_mission_day = some (T - 1) →
        (update_mission_streak s T).mission_streak = some (s.mission_streak.getD 0 + 1)) ∧
      ((s.last_mission_day = none ∨
          (s.last_mission_day ≠ some T ∧ s.last_mission_day ≠ some (T - 1))) →
        (update_mission_streak s T).mission_streak = some 1) ∧
      (update_mission_streak s T).last_mission_day = some T) ∧
    ((s.last_reflect_day = some (T - 1) →
        (update_reflection_streak s T).reflect_streak = some (s.reflect_streak.getD 0 + 1)) ∧
      ((s.last_reflect_day = none ∨
          (s.last_reflect_day ≠ some T ∧ s.last_reflect_day ≠ some (T - 1))) →
        (update_reflection_streak s T).reflect_streak = some 1) ∧
      (update_reflection_streak s T).last_reflect_day = some T) ∧
    ((update_mission_streak (update_mission_streak { s with last_mission_day := none } T)
        (T + 1)).mission_streak = some 2 ∧
      (update_mission_streak (update_mission_streak { s with last_mission_day := none } T)
        (T + 2)).mission_streak = some 1 ∧
      (update_reflection_streak
        (update_reflection_streak { s with last_reflect_day := none } T)
        (T + 1)).reflect_streak = some 2 ∧
      (update_reflection_streak
        (update_reflection_streak { s with last_reflect_day := none } T)
        (T + 2)).reflect_streak = some 1) := by
  refine ⟨⟨?_, ?_, ?_⟩, ⟨?_, ?_, ?_⟩, ?_, ?_, ?_, ?_⟩
  · intro h
    have hne : (T - 1 : Int) ≠ T := by omega
    simp [update_mission_streak, h, hne]
  · rintro (h | ⟨h1, h2⟩)
    · simp [update_mission_streak, h]
    · cases hl : s.last_mission_day with
      | none => simp [update_mission_streak, hl]
      | some d =>
        rw [hl] at h1 h2
        have hd1 : d ≠ T := fun hh => h1 (by rw [hh])
        have hd2 : T - 1 ≠ d := fun hh => h2 (by rw [← hh])
        simp [update_mission_streak, hl, hd1, hd2]
  · simp [update_mission_streak]
  · intro h
    have hne : (T - 1 : Int) ≠ T := by omega
    simp [update_reflection_streak, h, hne]
  · rintro (h | ⟨h1, h2⟩)
    · simp [update_reflection_streak, h]
    · cases hl : s.last_reflect_day with
      | none => simp [update_reflection_streak, hl]
      | some d =>
        rw [hl] at h1 h2
        have hd1 : d ≠ T := fun hh => h1 (by rw [hh])
        have hd2 : T - 1 ≠ d := fun hh => h2 (by rw [← hh])
        simp [update_reflection_streak, hl, hd1, hd2]
  · simp [update_reflection_streak]
  · have h1 : T ≠ T + 1 := by omega
    have h2 : T + 1 - 1 = T := by omega
    simp [update_mission_streak, h1.symm, h2]
  · have h1 : (T : Int) ≠ T + 2 := by omega
    have h2 : T + 2 - 1 ≠ T := by omega
    simp [update_mission_streak, h1.symm, h2]
  · have h1 : T ≠ T + 1 := by omega
    have h2 : T + 1 - 1 = T := by omega
    simp [update_reflection_streak, h1.symm, h2]
  · have h1 : (T : Int) ≠ T + 2 := by omega
    have h2 : T + 2 - 1 ≠ T := by omega
    simp [update_reflection_streak, h1.symm, h2]

/-- Concrete instance of `streak_update_continuity`: with last activity
on day 4 and streak 3, an event on day 5 yields streak 4; with last
activity on day 9 an event on day 5 resets the streak to 1. -/
theorem streak_update_continuity_witness :
    (update_mission_streak ⟨some 4, some 3, some 4, some 7, none⟩ 5).mission_streak =
      some (((some 3 : Option Int)).getD 0 + 1) ∧
    (update_mission_streak ⟨some 9, some 3, none, none, none⟩ 5).mission_streak = some 1 ∧
    (update_reflection_streak ⟨some 4, some 3, some 4, some 7, none⟩ 5).reflect_streak =
      some (((some 7 : Option Int)).getD 0 + 1) := by
  refine ⟨?_, ?_, ?_⟩
  · exact (streak_update_continuity ⟨some 4, some 3, some 4, some 7, none⟩ 5).1.1 (by decide)
  · exact (streak_update_continuity ⟨some 9, some 3, none, none, none⟩ 5).1.2.1
      (Or.inr ⟨by decide, by decide⟩)
  · exact (streak_update_continuity ⟨some 4, some 3, some 4, some 7, none⟩ 5).2.1.1 (by decide)

/-- C5: every index-taking mutation invoked with an index outside
`[0, len)` is a silent no-op: the collection (and the settings, where
relevant) comes back unchanged and no document is persisted. -/
theorem out_of_bounds_actions_noop (missions : List Mission) (settings : Settings)
    (today : Int) (skills : List Skill) (artifacts : List Artifact)
    (challenges : List Challenge) (quests : List Quest) (idx : Int) :
    (¬(0 ≤ idx ∧ idx < (missions.length : Int)) →
      action_toggle_mission missions settings today idx =
        (missions, settings, false, false)) ∧
    (¬(0 ≤ idx ∧ idx < (skills.length : Int)) →
      action_level_up_skill skills idx = (skills, false)) ∧
    (¬(0 ≤ idx ∧ idx < (artifacts.length : Int)) →
      action_toggle_artifact artifacts idx = (artifacts, false)) ∧
    (¬(0 ≤ idx ∧ idx < (challenges.length : Int)) →
      action_toggle_challenge challenges idx = (challenges, false)) ∧
    (¬(0 ≤ idx ∧ idx < (artifacts.length : Int)) →
      action_rename_artifact artifacts idx = (artifacts, false)) ∧
    (¬(0 ≤ idx ∧ idx < (quests.length : Int)) →
      action_start_quest quests idx = (quests, false)) := by
  refine ⟨?_, ?_, ?_, ?_, ?_, ?_⟩ <;> intro h
  · simp [action_toggle_mission, h]
  · simp [action_level_up_skill, h]
  · simp [action_toggle_artifact, h]
  · simp [action_toggle_challenge, h]
  · simp [action_rename_artifact, h]
  · simp [action_start_quest, h]

/-- Concrete instances of `out_of_bounds_actions_noop`: index 9 on
one-element collections, index -1, and index 0 on an empty one. -/
theorem out_of_bounds_actions_noop_witness :
    action_toggle_mission [⟨"Stardust Fitness", "Run for 30 minutes", false⟩] {} 0 9 =
      ([⟨"Stardust Fitness", "Run for 30 minutes", false⟩], {}, false, false) ∧
    action_level_up_skill [⟨"Fitness", 1, 20⟩] 9 = ([⟨"Fitness", 1, 20⟩], false) ∧
    action_toggle_artifact [⟨"Nebula Shard", false⟩] (-1) =
      ([⟨"Nebula Shard", false⟩], false) ∧
    action_toggle_challenge [] 0 = ([], false) ∧
    action_rename_artifact [⟨"Star Cluster", true⟩] 9 =
      ([⟨"Star Cluster", true⟩], false) ∧
    action_start_quest [⟨"Pilgrim of Stars", ["Write a cosmic poem"], false⟩] 9 =
      ([⟨"Pilgrim of Stars", ["Write a cosmic poem"], false⟩], false) := by
  refine ⟨?_, ?_, ?_, ?_, ?_, ?_⟩
  · exact (out_of_bounds_actions_noop [⟨"Stardust Fitness", "Run for 30 minutes", false⟩]
      {} 0 [] [] [] [] 9).1 (by decide)
  · exact (out_of_bounds_actions_noop [] {} 0 [⟨"Fitness", 1, 20⟩] [] [] [] 9).2.1 (by decide)
  · exact (out_of_bounds_actions_noop [] {} 0 [] [⟨"Nebula Shard", false⟩] [] [] (-1)).2.2.1
      (by decide)
  · exact (out_of_bounds_actions_noop [] {} 0 [] [] [] [] 0).2.2.2.1 (by decide)
  · exact (out_of_bounds_actions_noop [] {} 0 [] [⟨"Star Cluster", true⟩] [] [] 9).2.2.2.2.1
      (by decide)
  · exact (out_of_bounds_actions_noop [] {} 0 [] [] []
      [⟨"Pilgrim of Stars", ["Write a cosmic poem"], false⟩] 9).2.2.2.2.2 (by decide)

/-- A `dict_set` binding is read back by `dict_get`. -/
theorem dict_get_dict_set_self {β : Type} (m : List (String × β)) (k : String)
    (v : β) : dict_get (dict_set m k v) k = some v := by
  induction m with
  | nil => simp [dict_set, dict_get]
  | cons p rest ih =>
    by_cases h : p.1 = k
    · simp [dict_set, dict_get, h]
    · simp [dict_set, dict_get, h, ih]

/-- Keys after a `dict_set` are the old keys plus the written key. -/
theorem mem_keys_dict_set {β : Type} (m : List (String × β)) (k a : String)
    (v : β) : a ∈ (dict_set m k v).map Prod.fst ↔ a = k ∨ a ∈ m.map Prod.fst := by
  induction m with
  | nil => simp [dict_set]
  | cons p rest ih =>
    by_cases h : p.1 = k
    · simp [dict_set, h]
    · simp [dict_set, h, ih]
      tauto

/-- `dict_set` keeps the keys of a well-formed dict distinct. -/
theorem keys_dict_set_nodup {β : Type} (m : List (String × β)) (k : String)
    (v : β) (h : (m.map Prod.fst).Nodup) :
    ((dict_set m k v).map Prod.fst).Nodup := by
  induction m with
  | nil => simp [dict_set]
  | cons p rest ih =>
    simp only [List.map_cons, List.nodup_cons] at h
    by_cases hp : p.1 = k
    · simp only [dict_set, if_pos hp, List.map_cons, List.nodup_cons]
      exact ⟨hp ▸ h.1, h.2⟩
    · simp only [dict_set, if_neg hp, List.map_cons, List.nodup_cons]
      refine ⟨fun hm => ?_, ih h.2⟩
      rcases (mem_keys_dict_set rest k p.1 v).mp hm with he | he
      · exact hp he
      · exact h.1 he

/-- On a well-formed dict, `dict_set` leaves exactly one binding for
the written key. -/
theorem countP_dict_set_self {β : Type} (m : List (String × β)) (k : String)
    (v : β) (h : (m.map Prod.fst).Nodup) :
    (dict_set m k v).countP (fun p => p.1 == k) = 1 := by
  induction m with
  | nil => simp [dict_set, List.countP_cons]
  | cons p rest ih =>
    simp only [List.map_cons, List.nodup_cons] at h
    by_cases hp : p.1 = k
    · simp only [dict_set, if_pos hp, List.countP_cons, beq_self_eq_true, if_pos]
      have hz : rest.countP (fun q => q.1 == k) = 0 := by
        refine List.countP_eq_zero.mpr fun q hq => ?_
        simp only [beq_iff_eq]
        intro he
        have hmem : q.1 ∈ rest.map Prod.fst := List.mem_map_of_mem Prod.fst hq
        rw [he, ← hp] at hmem
        exact h.1 hmem
      simp [hz]
    · simp only [dict_set, if_neg hp, List.countP_cons, ih h.2]
      simp [hp]

/-- C6: `action_record_reflection` rejects input that is blank after
trimming ("No content to save.", nothing stored, nothing persisted);
otherwise it stores the trimmed content under today's key, and a second
record on the same day leaves exactly one binding for that key, holding
the second trimmed content. -/
theorem record_reflection_spec (m : List (String × String)) (s : Settings)
    (tk : String) (td : Int) (v w : String)
    (hkeys : (m.map Prod.fst).Nodup) :
    (strip v = "" →
      action_record_reflection m s tk td v = (m, s, "No content to save.", false)) ∧
    (strip v ≠ "" →
      (action_record_reflection m s tk td v).1 = dict_set m tk (strip v) ∧
      dict_get (action_record_reflection m s tk td v).1 tk = some (strip v)) ∧
    (strip v ≠ "" → strip w ≠ "" →
      dict_get (action_record_reflection (action_record_reflection m s tk td v).1
          s tk td w).1 tk = some (strip w) ∧
      ((action_record_reflection (action_record_reflection m s tk td v).1
          s tk td w).1).countP (fun p => p.1 == tk) = 1) := by
  refine ⟨?_, ?_, ?_⟩
  · intro h
    simp [action_record_reflection, h]
  · intro h
    simp [action_record_reflection, h, dict_get_dict_set_self]
  · intro h1 h2
    simp only [action_record_reflection, if_pos h1, if_pos h2, ne_eq,
      if_neg (fun hh => h1 hh), if_neg (fun hh => h2 hh)]
    constructor
    · exact dict_get_dict_set_self _ tk (strip w)
    · exact countP_dict_set_self _ tk (strip w) (keys_dict_set_nodup m tk (strip v) hkeys)

/-- Concrete instance of `record_reflection_spec`: the spec's scenario
of two reflections recorded for 2024-05-01, plus a blank input. -/
theorem record_reflection_spec_witness :
    dict_get (action_record_reflection
        (action_record_reflection [] {} "2024-05-01" 0 "Saw a comet").1
        {} "2024-05-01" 0 "Actually a satellite").1 "2024-05-01" =
      some (strip "Actually a satellite") ∧
    ((action_record_reflection
        (action_record_reflection [] {} "2024-05-01" 0 "Saw a comet").1
        {} "2024-05-01" 0 "Actually a satellite").1).countP
        (fun p => p.1 == "2024-05-01") = 1 ∧
    action_record_reflection [] {} "2024-05-01" 0 "   " =
      ([], {}, "No content to save.", false) := by
  have h := record_reflection_spec [] {} "2024-05-01" 0 "Saw a comet"
    "Actually a satellite" (by simp)
  have h2 := record_reflection_spec [] {} "2024-05-01" 0 "   " "x" (by simp)
  exact ⟨(h.2.2 (by decide) (by decide)).1, (h.2.2 (by decide) (by decide)).2,
    h2.1 (by decide)⟩

/-- A modular random draw lands inside a non-empty list. -/
theorem getD_mod_mem (tips : List String) (r : Nat) (h : tips ≠ []) :
    tips.getD (r % tips.length) "" ∈ tips := by
  have hl : 0 < tips.length := List.length_pos.mpr h
  have hm : r % tips.length < tips.length := Nat.mod_lt _ hl
  rw [List.getD_eq_getElem?_getD, List.getElem?_eq_getElem hm]
  exact List.getElem_mem hm

/-- C7, counterexample: with the category registered but holding an
empty tip list, `action_oracle_tip` does not come back with the
"no tips available" outcome — `random.choice([])` raises instead. -/
theorem oracle_tip_empty_list_not_noTips :
    action_oracle_tip [("missions", [])] "missions" 0 = OracleOutcome.indexError ∧
    OracleOutcome.indexError ≠ OracleOutcome.noTips := by
  exact ⟨rfl, by decide⟩

/-- C7, amended: the "no tips" outcome covers exactly the empty oracle
map and the absent category; a registered non-empty list yields a tip
drawn from that list; a registered empty list fails with `IndexError`
instead of the "no tips" outcome. -/
theorem oracle_tip_outcomes (oracles : List (String × List String)) (cat : String)
    (r : Nat) :
    (oracles = [] → action_oracle_tip oracles cat r = OracleOutcome.noTips) ∧
    (dict_get oracles cat = none →
      action_oracle_tip oracles cat r = OracleOutcome.noTips) ∧
    (∀ tips, dict_get oracles cat = some tips → tips ≠ [] →
      ∃ t, action_oracle_tip oracles cat r = OracleOutcome.tip t ∧ t ∈ tips) ∧
    (∀ tips, dict_get oracles cat = some tips → tips = [] →
      action_oracle_tip oracles cat r = OracleOutcome.indexError) := by
  refine ⟨?_, ?_, ?_, ?_⟩
  · intro h
    subst h
    rfl
  · intro h
    cases oracles with
    | nil => rfl
    | cons p rest => simp [action_oracle_tip, h]
  · intro tips h hne
    cases oracles with
    | nil => simp [dict_get] at h
    | cons p rest =>
      refine ⟨tips.getD (r % tips.length) "", ?_, getD_mod_mem tips r hne⟩
      simp [action_oracle_tip, h, hne]
  · intro tips h he
    subst he
    cases oracles with
    | nil => simp [dict_get] at h
    | cons p rest => simp [action_oracle_tip, h]

/-- Concrete instances of `oracle_tip_outcomes`: empty map, absent
category, and a present category with two tips. -/
theorem oracle_tip_outcomes_witness :
    action_oracle_tip [] "missions" 3 = OracleOutcome.noTips ∧
    action_oracle_tip [("challenges", ["plan"])] "missions" 3 = OracleOutcome.noTips ∧
    (∃ t, action_oracle_tip [("missions", ["rest", "focus"])] "missions" 3 =
        OracleOutcome.tip t ∧ t ∈ ["rest", "focus"]) := by
  refine ⟨(oracle_tip_outcomes [] "missions" 3).1 rfl,
    (oracle_tip_outcomes [("challenges", ["plan"])] "missions" 3).2.1 (by decide),
    (oracle_tip_outcomes [("missions", ["rest", "focus"])] "missions" 3).2.2.1
      ["rest", "focus"] (by decide) (by decide)⟩

/-- C10: when the stored `last_cosmic_event_date` differs from today,
the Temple Gate check stamps today and persists the settings even with
an empty lore pool (showing nothing), and any later check that same day
shows no snippet even if the pool has become non-empty. -/
theorem daily_lore_gate (s : Settings) (lore : List String) (T : Int) (r : Nat)
    (h : s.last_cosmic_event_date ≠ some T) :
    (temple_gate_on_mount s lore T r).2.1.last_cosmic_event_date = some T ∧
    (temple_gate_on_mount s lore T r).2.2 = true ∧
    (lore = [] → (temple_gate_on_mount s lore T r).1 = none) ∧
    (∀ lore2 r2, temple_gate_on_mount (temple_gate_on_mount s lore T r).2.1 lore2 T r2 =
      (none, (temple_gate_on_mount s lore T r).2.1, false)) := by
  refine ⟨?_, ?_, ?_, ?_⟩
  · simp [temple_gate_on_mount, h]
  · simp [temple_gate_on_mount, h]
  · intro hl
    simp [temple_gate_on_mount, h, hl]
  · intro lore2 r2
    simp [temple_gate_on_mount, h]

/-- Concrete instance of `daily_lore_gate`: fresh settings, empty pool,
day 7; a second check on day 7 with a non-empty pool shows nothing. -/
theorem daily_lore_gate_witness :
    (temple_gate_on_mount {} [] 7 0).2.1.last_cosmic_event_date = some 7 ∧
    (temple_gate_on_mount {} [] 7 0).2.2 = true ∧
    (temple_gate_on_mount {} [] 7 0).1 = none ∧
    temple_gate_on_mount (temple_gate_on_mount {} [] 7 0).2.1 ["A comet passes."] 7 3 =
      (none, (temple_gate_on_mount {} [] 7 0).2.1, false) := by
  have h := daily_lore_gate {} [] 7 0 (by decide)
  exact ⟨h.1, h.2.1, h.2.2.1 rfl, h.2.2.2 ["A comet passes."] 3⟩

/-- C2, counterexample: a store with no profile but one badge.  The
export holds an empty profile object; the import into a freshly
emptied store aborts on it, and the badge collection is not
reproduced (nor does the import complete). -/
theorem export_import_roundtrip_fails_without_profile :
    import_all_data
        (export_all_data ⟨[], [], [], [], [], none, [⟨"Pioneer", "First badge"⟩], []⟩)
        empty_store ≠
      (⟨[], [], [], [], [], none, [⟨"Pioneer", "First badge"⟩], []⟩, true) ∧
    (import_all_data
        (export_all_data ⟨[], [], [], [], [], none, [⟨"Pioneer", "First badge"⟩], []⟩)
        empty_store).1.badges = [] ∧
    (import_all_data
        (export_all_data ⟨[], [], [], [], [], none, [⟨"Pioneer", "First badge"⟩], []⟩)
        empty_store).2 = false := by
  refine ⟨by decide, rfl, rfl⟩

/-- C2, amended: `export_all_data` followed by `import_all_data`
reproduces every entity collection identically — into any target
store, including a freshly emptied one — whenever the source store's
profile exists (when it does not, the import aborts on the empty
profile object and later sections are not restored). -/
theorem export_import_roundtrip_with_profile (s t : Store) (p : Profile)
    (h : s.profile = some p) :
    import_all_data (export_all_data s) t = (s, true) := by
  cases s with
  | mk m sk a r c pr b q =>
    simp only [Store.profile] at h
    subst h
    rfl

/-- Concrete instance of `export_import_roundtrip_with_profile`:
a populated store with a profile, imported into the emptied store. -/
theorem export_import_roundtrip_with_profile_witness :
    import_all_data
        (export_all_data ⟨[⟨"m", "d", true⟩], [⟨"Coding", 2, 50⟩], [],
          [("2024-05-01", "ok")], [], some ⟨"Stargazer", "Comet Shaman", "white"⟩,
          [⟨"b", "bd"⟩], []⟩) empty_store =
      (⟨[⟨"m", "d", true⟩], [⟨"Coding", 2, 50⟩], [],
        [("2024-05-01", "ok")], [], some ⟨"Stargazer", "Comet Shaman", "white"⟩,
        [⟨"b", "bd"⟩], []⟩, true) :=
  export_import_roundtrip_with_profile _ empty_store
    ⟨"Stargazer", "Comet Shaman", "white"⟩ rfl

/-- C8, counterexample: a parseable document of the wrong shape (a
JSON object where an array is expected) is converted by
`load_lore_snippets` to the empty collection, with no error
surfaced. -/
theorem lore_load_wrong_shape_silent_empty :
    load_lore_snippets (Doc.parsed (Json.jobj [])) = Except.ok [] ∧
    (load_lore_snippets (Doc.parsed (Json.jobj []))).isOk = true :=
  ⟨rfl, rfl⟩

/-- C8, amended: a malformed document surfaces a fatal parse error
from both loaders, but wrong-shaped parseable content is not reliably
surfaced: `load_lore_snippets` silently returns the empty list on any
parseable non-array, and `load_missions` silently returns the empty
collection for a parsed empty object or empty string (iterating zero
elements); `load_missions` raises only on a non-empty object or
string (whose iterated elements `Mission(**m)` rejects) and on
non-iterable parsed values. -/
theorem load_error_surfacing (j : Json) (f : String × Json)
    (fs : List (String × Json)) (c : Char) (cs : List Char) :
    load_missions Doc.malformed = Except.error LoadErr.parseFail ∧
    load_lore_snippets Doc.malformed = Except.error LoadErr.parseFail ∧
    (j.isArr = false → load_lore_snippets (Doc.parsed j) = Except.ok []) ∧
    load_missions (Doc.parsed (Json.jobj [])) = Except.ok [] ∧
    load_missions (Doc.parsed (Json.jstr ⟨[]⟩)) = Except.ok [] ∧
    load_missions (Doc.parsed (Json.jobj (f :: fs))) = Except.error LoadErr.shapeFail ∧
    load_missions (Doc.parsed (Json.jstr ⟨c :: cs⟩)) = Except.error LoadErr.shapeFail ∧
    (j.isArr = false → j.isObj = false → j.isStr = false →
      load_missions (Doc.parsed j) = Except.error LoadErr.shapeFail) := by
  refine ⟨rfl, rfl, ?_, rfl, rfl, rfl, rfl, ?_⟩
  · intro h
    cases j with
    | jarr xs => simp [Json.isArr] at h
    | null => rfl
    | jbool b => rfl
    | jnum n => rfl
    | jstr st => rfl
    | jobj g => rfl
  · intro h1 h2 h3
    cases j with
    | jarr xs => simp [Json.isArr] at h1
    | jobj g => simp [Json.isObj] at h2
    | jstr st => simp [Json.isStr] at h3
    | null => rfl
    | jbool b => rfl
    | jnum n => rfl

/-- Concrete instances of `load_error_surfacing`: the wrong-shape
documents `{"k": null}` (lore), `{}` (missions, silently empty) and
`null` (missions, raising). -/
theorem load_error_surfacing_witness :
    load_lore_snippets (Doc.parsed (Json.jobj [("k", Json.null)])) = Except.ok [] ∧
    load_missions (Doc.parsed (Json.jobj [])) = Except.ok [] ∧
    load_missions (Doc.parsed Json.null) = Except.error LoadErr.shapeFail := by
  have h := load_error_surfacing (Json.jobj [("k", Json.null)]) ("k", Json.null) [] 'a' []
  have h2 := load_error_surfacing Json.null ("k", Json.null) [] 'a' []
  exact ⟨h.2.2.1 rfl, h.2.2.2.1, h2.2.2.2.2.2.2.2 rfl rfl rfl⟩

/-- C9, counterexample: the traces of `save_missions` and
`save_settings` write the target document directly and contain no
rename, so the temporary-file-plus-atomic-rename discipline the claim
asserts does not hold. -/
theorem save_missions_not_atomic :
    atomic_save_pattern (save_missions []) "missions.json" = false ∧
    atomic_save_pattern (save_settings {}) "settings.json" = false ∧
    (save_missions []).any (fun op => op.writesPath "missions.json") = true := by
  refine ⟨by decide, by decide, by decide⟩

/-- C9, amended: every save opens the target document for writing,
truncating it, and dumps the whole serialized collection directly into
it; no temporary file and no rename appear anywhere in the trace. -/
theorem save_direct_overwrite (missions : List Mission) (s : Settings) :
    save_missions missions = [FsOp.openTrunc "missions.json",
      FsOp.writeDoc "missions.json" (Json.jarr (missions.map mission_to_json))] ∧
    save_settings s = [FsOp.openTrunc "settings.json",
      FsOp.writeDoc "settings.json" (settings_to_json s)] ∧
    (save_missions missions).any FsOp.isRename = false ∧
    (save_settings s).any FsOp.isRename = false := by
  exact ⟨rfl, rfl, rfl, rfl⟩

end Ct
